import Mathlib

/-!
Shallow embedding of src/cv_model.py: an experiment driver that, for each
output class and each fold, loads a CSV split manifest, fine-tunes a
classifier through an external training backend, predicts the held-out
rows and writes a filename-to-label JSON map.

The embedding models the Python-level semantics the script actually has:
dynamic name resolution (the write step at line 29 references a name,
pgs_path, that is defined nowhere), the true-division operator on
built-in values (line 27 applies / to a plain str, which does not define
it), and the filesystem effects of each iteration as an explicit trace.
The training backend (cnn_learner / fine_tune / predict) is treated as
an opaque oracle, per the spec's collaborator contract.
-/

namespace PGS

/-- Python runtime errors the script can raise. -/
inductive PyErr where
  | fileNotFound (p : String)
  | missingColumn (col : String)
  | typeError (msg : String)
  | nameError (nm : String)
deriving DecidableEq

/-- A Python value flowing through the path expressions of the script:
either a built-in str or a pathlib Path. -/
inductive PyVal where
  | str (s : String)
  | path (p : String)
deriving DecidableEq

/-- Whether a path string ends with the separator. -/
def endsWithSlash (s : String) : Bool :=
  s.toList.getLast? = some '/'

/-- Joining one path component with a single separator, as pathlib does. -/
def joinPath (p s : String) : String :=
  if endsWithSlash p then p ++ s else p ++ "/" ++ s

/-- The TypeError message raised by / on a built-in str. -/
def strDivMsg : String := "unsupported operand type for /: str"

/-- Python / (true division) on path-like values: pathlib Path defines the
operator against strings and paths; built-in str does not, so a str left
operand raises TypeError. This is the operator used at cv_model.py
lines 24, 27 and 29. -/
def pyDiv : PyVal → PyVal → Except PyErr PyVal
  | .path p, .str s => .ok (.path (joinPath p s))
  | .path p, .path s => .ok (.path (joinPath p s))
  | .str _, _ => .error (.typeError strDivMsg)

/-- The underlying string of a path-like value. -/
def pathStr : PyVal → String
  | .str s => s
  | .path p => p

/-- pathlib Path construction: a trailing slash is dropped. -/
def pyPath (s : String) : PyVal :=
  .path (if endsWithSlash s then s.dropRight 1 else s)

/-- cv_model.py line 9: annotation_path = Path of "../output/". -/
def annotation_path : PyVal := pyPath "../output/"

/-- One row of a split manifest CSV: the image filename and its
validation flag. -/
structure Row where
  fname : String
  is_valid : Bool
deriving DecidableEq

/-- A split manifest CSV as stored on disk: whether the is_valid column
is present, and the data rows. -/
structure Manifest where
  hasIsValid : Bool
  rows : List Row
deriving DecidableEq

/-- The filenames of the rows marked is_valid (cv_model.py line 25). -/
def validFnames (m : Manifest) : List String :=
  (m.rows.filter (fun r => r.is_valid)).map (fun r => r.fname)

/-- cv_model.py line 25: selecting the is_valid column of the dataframe
raises when the manifest lacks that column. -/
def getValidFnames (m : Manifest) : Except PyErr (List String) :=
  if m.hasIsValid then .ok (validFnames m) else .error (.missingColumn "is_valid")

/-- Filesystem and training-backend state visible to the driver: the CSV
manifests by path, the JSON output files by path, and the backend's
single-image prediction oracle. -/
structure Env where
  csvFiles : String → Option Manifest
  jsonFiles : String → Option (List (String × String))
  predictLabel : String → String

/-- Observable effects of the driver: manifest reads, JSON writes, and
single-image prediction requests to the training backend. -/
inductive Op where
  | readCsv (p : String)
  | writeJson (p : String)
  | predict (p : String)
deriving DecidableEq

/-- cv_model.py line 16: the manifest filename for a class and fold. -/
def csvName (c : String) (i : Nat) : String :=
  c ++ "_split_" ++ toString i ++ ".csv"

/-- The manifest path resolved against the annotation directory. -/
def csvFilePath (c : String) (i : Nat) : String :=
  joinPath "../output" (csvName c i)

/-- cv_model.py lines 14 to 21: ImageDataLoaders.from_csv resolves the
manifest path against the annotation directory, opens and reads the CSV
there, and requires the valid_col column is_valid to exist. -/
def from_csv (env : Env) (dir : PyVal) (nm : String) : Except PyErr Manifest × List Op :=
  match pyDiv dir (.str nm) with
  | .error e => (.error e, [])
  | .ok p =>
    match env.csvFiles (pathStr p) with
    | none => (.error (.fileNotFound (pathStr p)), [])
    | some m =>
      if m.hasIsValid then (.ok m, [.readCsv (pathStr p)])
      else (.error (.missingColumn "is_valid"), [.readCsv (pathStr p)])

/-- cv_model.py line 24: pd.read_csv of an existing file returns its
content; a missing file raises. -/
def read_csv (env : Env) (p : String) : Except PyErr Manifest × List Op :=
  match env.csvFiles p with
  | none => (.error (.fileNotFound p), [])
  | some m => (.ok m, [.readCsv p])

/-- cv_model.py lines 26 to 28: the prediction dict comprehension. For
each held-out filename the image path is built as "../data/imgs" / f, a
true division whose left operand is a built-in str; only if that
succeeded would learn.predict be consulted (the backend oracle). -/
def predictStage (env : Env) : List String → Except PyErr (List (String × String)) × List Op
  | [] => (.ok [], [])
  | f :: rest =>
    match pyDiv (.str "../data/imgs") (.str f) with
    | .error e => (.error e, [])
    | .ok p =>
      match predictStage env rest with
      | (.error e, tr) => (.error e, .predict (pathStr p) :: tr)
      | (.ok ps, tr) => (.ok ((f, env.predictLabel (pathStr p)) :: ps), .predict (pathStr p) :: tr)

/-- The names in scope at cv_model.py line 29 that hold path-like values.
The script defines annotation_path (line 9) and the loop binds
output_class; no binding for pgs_path exists anywhere in the source. -/
def pathNamesInScope (c : String) : List (String × PyVal) :=
  [("annotation_path", annotation_path), ("output_class", .str c)]

/-- cv_model.py lines 29 and 30: evaluate the output path expression
(the name pgs_path joined by / with the formatted JSON filename), open
the result for writing and dump the prediction map. Python evaluates the
name pgs_path before calling open, so an unresolved name raises before
any file is touched. -/
def writeStage (env : Env) (c : String) (i : Nat) (pm : List (String × String)) :
    Except PyErr Unit × Env × List Op :=
  match (pathNamesInScope c).lookup "pgs_path" with
  | none => (.error (.nameError "pgs_path"), env, [])
  | some v =>
    match pyDiv v (.str ("../output/" ++ c ++ "_split_" ++ toString i ++ ".json")) with
    | .error e => (.error e, env, [])
    | .ok p =>
      (.ok (),
       { env with jsonFiles := fun q => if q = pathStr p then some pm else env.jsonFiles q },
       [.writeJson (pathStr p)])

/-- One class-and-fold iteration, cv_model.py lines 14 to 30: build the
data loaders from the manifest, fine-tune (backend, opaque, modelled as
succeeding), re-read the manifest, collect the held-out filenames, build
the prediction map and write it as JSON. Returns the result, the
post-state and the effect trace. -/
def iterStep (env : Env) (c : String) (i : Nat) : Except PyErr Unit × Env × List Op :=
  match from_csv env annotation_path (csvName c i) with
  | (.error e, tr1) => (.error e, env, tr1)
  | (.ok _dls, tr1) =>
    match pyDiv annotation_path (.str (csvName c i)) with
    | .error e => (.error e, env, tr1)
    | .ok p =>
      match read_csv env (pathStr p) with
      | (.error e, tr2) => (.error e, env, tr1 ++ tr2)
      | (.ok df, tr2) =>
        match getValidFnames df with
        | .error e => (.error e, env, tr1 ++ tr2)
        | .ok fns =>
          match predictStage env fns with
          | (.error e, tr3) => (.error e, env, tr1 ++ tr2 ++ tr3)
          | (.ok predictions, tr3) =>
            match writeStage env c i predictions with
            | (r, env2, tr4) => (r, env2, tr1 ++ tr2 ++ tr3 ++ tr4)

/-- cv_model.py line 10: the fixed class order. -/
def classes : List String := ["adhesions", "appearances", "pgs"]

/-- cv_model.py line 12: range of folds 1 to 10 inclusive. -/
def folds : List Nat := List.range' 1 10

/-- The class-and-fold pairs in the order the nested loops of main
enumerate them. -/
def pairSequence : List (String × Nat) :=
  classes.flatMap (fun c => folds.map (fun i => (c, i)))

/-- Sequential processing of the pairs; the script has no exception
handler, so an error in one iteration terminates the whole run. -/
def runPairs (env : Env) : List (String × Nat) → Except PyErr Unit × Env × List Op
  | [] => (.ok (), env, [])
  | (c, i) :: rest =>
    match iterStep env c i with
    | (.error e, env2, tr) => (.error e, env2, tr)
    | (.ok _, env2, tr) =>
      match runPairs env2 rest with
      | (r, env3, tr2) => (r, env3, tr ++ tr2)

/-- cv_model.py main: run every class and every fold in order. -/
def main (env : Env) : Except PyErr Unit × Env × List Op :=
  runPairs env pairSequence

/-- Whether a result is a raised error. -/
def isErr : Except PyErr Unit → Bool
  | .error _ => true
  | .ok _ => false

/-- Joining a str filename onto the annotation directory. -/
theorem pyDiv_annot_dir (nm : String) :
    pyDiv annotation_path (.str nm) = .ok (.path (joinPath "../output" nm)) := rfl

/-- True division with a built-in str on the left always raises. -/
theorem pyDiv_str (a : String) (b : PyVal) :
    pyDiv (.str a) b = .error (.typeError strDivMsg) := by
  cases b <;> rfl

/-- The name pgs_path resolves to nothing at the write step. -/
theorem lookup_pgs_path (c : String) :
    (pathNamesInScope c).lookup "pgs_path" = none := rfl

/-- The write step always raises NameError for pgs_path, before touching
the filesystem. -/
theorem writeStage_eq (env : Env) (c : String) (i : Nat) (pm : List (String × String)) :
    writeStage env c i pm = (.error (.nameError "pgs_path"), env, []) := rfl

/-- An iteration whose manifest file is absent fails at the loader with
FileNotFound, touching nothing. -/
theorem iterStep_csv_missing (env : Env) (c : String) (i : Nat)
    (hm : env.csvFiles (csvFilePath c i) = none) :
    iterStep env c i = (.error (.fileNotFound (csvFilePath c i)), env, []) := by
  have hm2 : env.csvFiles (joinPath "../output" (csvName c i)) = none := hm
  unfold iterStep from_csv
  simp only [pyDiv_annot_dir, pathStr, hm2, csvFilePath]

/-- An iteration whose manifest lacks the is_valid column fails at the
loader with the missing-column error, after a single read. -/
theorem iterStep_no_column (env : Env) (c : String) (i : Nat) (m : Manifest)
    (hm : env.csvFiles (csvFilePath c i) = some m)
    (hv : m.hasIsValid = false) :
    iterStep env c i =
      (.error (.missingColumn "is_valid"), env, [.readCsv (csvFilePath c i)]) := by
  have hm2 : env.csvFiles (joinPath "../output" (csvName c i)) = some m := hm
  unfold iterStep from_csv
  simp only [pyDiv_annot_dir, pathStr, hm2, hv, if_false, Bool.false_eq_true, csvFilePath,
    ite_false]

/-- An iteration with a well-formed manifest and no held-out rows builds
the empty prediction map, reaches the write step, and fails there with
NameError for pgs_path, after exactly the two manifest reads. -/
theorem iterStep_write_reached (env : Env) (c : String) (i : Nat) (m : Manifest)
    (hm : env.csvFiles (csvFilePath c i) = some m)
    (hv : m.hasIsValid = true)
    (hfns : validFnames m = []) :
    iterStep env c i =
      (.error (.nameError "pgs_path"), env,
       [.readCsv (csvFilePath c i), .readCsv (csvFilePath c i)]) := by
  have hm2 : env.csvFiles (joinPath "../output" (csvName c i)) = some m := hm
  unfold iterStep from_csv read_csv getValidFnames
  simp only [pyDiv_annot_dir, pathStr, hm2, hv, hfns, if_true, predictStage, writeStage_eq,
    csvFilePath, List.append_nil, List.nil_append, List.cons_append, ite_true]

/-- An iteration with a well-formed manifest and at least one held-out
row fails inside the prediction comprehension with the TypeError of the
true division on a built-in str, after exactly the two manifest reads
and before any prediction request. -/
theorem iterStep_predict_error (env : Env) (c : String) (i : Nat) (m : Manifest)
    (f : String) (rest : List String)
    (hm : env.csvFiles (csvFilePath c i) = some m)
    (hv : m.hasIsValid = true)
    (hfns : validFnames m = f :: rest) :
    iterStep env c i =
      (.error (.typeError strDivMsg), env,
       [.readCsv (csvFilePath c i), .readCsv (csvFilePath c i)]) := by
  have hm2 : env.csvFiles (joinPath "../output" (csvName c i)) = some m := hm
  unfold iterStep from_csv read_csv getValidFnames
  simp only [pyDiv_annot_dir, pathStr, hm2, hv, hfns, if_true, predictStage, pyDiv_str,
    csvFilePath, List.append_nil, List.nil_append, List.cons_append, ite_true]

/-- Whether an effect is a JSON write. -/
def isWriteOp : Op → Bool
  | .writeJson _ => true
  | _ => false

/-- Whether an effect is a prediction request to the backend. -/
def isPredictOp : Op → Bool
  | .predict _ => true
  | _ => false

/-- A manifest with the is_valid column and no rows. -/
def mEmpty : Manifest := ⟨true, []⟩

/-- The manifest of the spec's worked scenario: rows a.png (held out),
b.png (training), c.png (held out). -/
def mScenario : Manifest := ⟨true, [⟨"a.png", true⟩, ⟨"b.png", false⟩, ⟨"c.png", true⟩]⟩

/-- A manifest lacking the is_valid column. -/
def mNoColumn : Manifest := ⟨false, [⟨"a.png", true⟩]⟩

/-- An environment holding only the empty adhesions fold-1 manifest. -/
def envEmptyManifest : Env where
  csvFiles := fun p => if p = "../output/adhesions_split_1.csv" then some mEmpty else none
  jsonFiles := fun _ => none
  predictLabel := fun _ => "label"

/-- An environment holding only the scenario manifest for adhesions
fold 1. -/
def envScenario : Env where
  csvFiles := fun p => if p = "../output/adhesions_split_1.csv" then some mScenario else none
  jsonFiles := fun _ => none
  predictLabel := fun _ => "label"

/-- An environment whose adhesions fold-1 manifest lacks the is_valid
column. -/
def envNoColumn : Env where
  csvFiles := fun p => if p = "../output/adhesions_split_1.csv" then some mNoColumn else none
  jsonFiles := fun _ => none
  predictLabel := fun _ => "label"

/-- An environment where every manifest path resolves to a well-formed
manifest with held-out rows, and no JSON file exists yet. -/
def envAllManifests : Env where
  csvFiles := fun _ => some mScenario
  jsonFiles := fun _ => none
  predictLabel := fun _ => "label"

/-- Every iteration raises: no class-and-fold pair is ever processed to
completion, and the environment (in particular the JSON store) is left
untouched. -/
theorem iterStep_always_raises (env : Env) (c : String) (i : Nat) :
    isErr (iterStep env c i).1 = true ∧ (iterStep env c i).2.1 = env := by
  cases hm : env.csvFiles (csvFilePath c i) with
  | none => rw [iterStep_csv_missing env c i hm]; exact ⟨rfl, rfl⟩
  | some m =>
    cases hv : m.hasIsValid with
    | false => rw [iterStep_no_column env c i m hm hv]; exact ⟨rfl, rfl⟩
    | true =>
      cases hfns : validFnames m with
      | nil => rw [iterStep_write_reached env c i m hm hv hfns]; exact ⟨rfl, rfl⟩
      | cons f rest => rw [iterStep_predict_error env c i m f rest hm hv hfns]; exact ⟨rfl, rfl⟩

/-- Claim C1 (code-bug evidence). The claim asserts that for every pair
processed to completion the written JSON key set equals the manifest's
held-out filenames; in the code no pair is ever processed to completion:
every iteration raises (TypeError at the image-path join when held-out
rows exist, NameError for pgs_path otherwise) and the JSON store is
never touched, so no prediction map is ever written at all. -/
theorem c1_no_pair_completes (env : Env) (c : String) (i : Nat) :
    isErr (iterStep env c i).1 = true ∧
    (iterStep env c i).2.1.jsonFiles = env.jsonFiles := by
  obtain ⟨h1, h2⟩ := iterStep_always_raises env c i
  exact ⟨h1, by rw [h2]⟩

/-- Claim C2 (code-bug evidence). The claim asserts a complete run writes
thirty JSON files; on an environment where every manifest exists and is
well-formed, the run raises during the first iteration, leaves the
environment untouched and performs no JSON write at all. -/
theorem c2_run_writes_zero_files :
    isErr (main envAllManifests).1 = true ∧
    (main envAllManifests).2.1 = envAllManifests ∧
    List.filter isWriteOp (main envAllManifests).2.2 = [] :=
  ⟨rfl, rfl, rfl⟩

/-- Claim C3 (confirmed). Any iteration that reaches the JSON-write step
(manifest present, is_valid column present, prediction map assembled,
which in this code requires an empty held-out set) fails there with a
name-resolution error for pgs_path, which is defined nowhere in the
script. -/
theorem c3_write_step_raises_name_error (env : Env) (c : String) (i : Nat)
    (m : Manifest)
    (hm : env.csvFiles (csvFilePath c i) = some m)
    (hv : m.hasIsValid = true)
    (hfns : validFnames m = []) :
    (iterStep env c i).1 = .error (.nameError "pgs_path") := by
  rw [iterStep_write_reached env c i m hm hv hfns]

/-- Witness for C3: the concrete empty manifest reaches the write step
and raises NameError for pgs_path. -/
theorem c3_witness :
    envEmptyManifest.csvFiles (csvFilePath "adhesions" 1) = some mEmpty ∧
    mEmpty.hasIsValid = true ∧
    validFnames mEmpty = [] ∧
    (iterStep envEmptyManifest "adhesions" 1).1 = .error (.nameError "pgs_path") :=
  ⟨rfl, rfl, rfl,
   c3_write_step_raises_name_error envEmptyManifest "adhesions" 1 mEmpty rfl rfl rfl⟩

/-- Claim C4 (code-bug evidence). The claim asserts an empty manifest
yields an empty JSON object without error; in the code the iteration on
the concrete empty manifest raises NameError for pgs_path, performs no
write effect, and the JSON store holds no file at the output path before
or after. -/
theorem c4_empty_manifest_raises :
    iterStep envEmptyManifest "adhesions" 1 =
      (.error (.nameError "pgs_path"), envEmptyManifest,
       [.readCsv (csvFilePath "adhesions" 1), .readCsv (csvFilePath "adhesions" 1)]) ∧
    envEmptyManifest.jsonFiles "../output/adhesions_split_1.json" = none ∧
    (iterStep envEmptyManifest "adhesions" 1).2.1.jsonFiles
      "../output/adhesions_split_1.json" = none :=
  ⟨rfl, rfl, rfl⟩

/-- Claim C5 (confirmed). The nested loops enumerate the class-and-fold
pairs in exactly the order adhesions 1..10, appearances 1..10,
pgs 1..10, with no pair missing and none repeated. -/
theorem c5_pair_order :
    pairSequence =
      [("adhesions", 1), ("adhesions", 2), ("adhesions", 3), ("adhesions", 4),
       ("adhesions", 5), ("adhesions", 6), ("adhesions", 7), ("adhesions", 8),
       ("adhesions", 9), ("adhesions", 10),
       ("appearances", 1), ("appearances", 2), ("appearances", 3), ("appearances", 4),
       ("appearances", 5), ("appearances", 6), ("appearances", 7), ("appearances", 8),
       ("appearances", 9), ("appearances", 10),
       ("pgs", 1), ("pgs", 2), ("pgs", 3), ("pgs", 4), ("pgs", 5),
       ("pgs", 6), ("pgs", 7), ("pgs", 8), ("pgs", 9), ("pgs", 10)] ∧
    pairSequence.Nodup := by
  refine ⟨rfl, ?_⟩
  decide

/-- Claim C6 (confirmed). An error raised in an iteration is not caught
anywhere: the run's result is that very error, the remaining pairs are
never processed (the run's post-state and effect trace are exactly those
of the failing iteration), and the filesystem as of the failing
iteration, including every file written earlier, is left as is. -/
theorem c6_error_propagates (env : Env) (c : String) (i : Nat)
    (rest : List (String × Nat)) (e : PyErr)
    (h : (iterStep env c i).1 = .error e) :
    runPairs env ((c, i) :: rest) =
      (.error e, (iterStep env c i).2.1, (iterStep env c i).2.2) := by
  rcases hit : iterStep env c i with ⟨r, env2, tr⟩
  rw [hit] at h
  have hr : r = .error e := h
  subst hr
  simp [runPairs, hit]

/-- Witness for C6: the NameError of the first adhesions iteration
terminates a two-pair run with the second pair untouched. -/
theorem c6_witness :
    (iterStep envEmptyManifest "adhesions" 1).1 = .error (.nameError "pgs_path") ∧
    runPairs envEmptyManifest [("adhesions", 1), ("adhesions", 2)] =
      (.error (.nameError "pgs_path"), (iterStep envEmptyManifest "adhesions" 1).2.1,
       (iterStep envEmptyManifest "adhesions" 1).2.2) :=
  ⟨rfl,
   c6_error_propagates envEmptyManifest "adhesions" 1 [("adhesions", 2)]
     (.nameError "pgs_path") rfl⟩

/-- Claim C7 (confirmed). A manifest lacking the is_valid column makes
the iteration abort at the loader with the missing-column error, the
environment (hence the JSON store) unchanged, and the effect trace
holding a single manifest read and no write. -/
theorem c7_missing_column_aborts (env : Env) (c : String) (i : Nat) (m : Manifest)
    (hm : env.csvFiles (csvFilePath c i) = some m)
    (hv : m.hasIsValid = false) :
    iterStep env c i =
      (.error (.missingColumn "is_valid"), env, [.readCsv (csvFilePath c i)]) :=
  iterStep_no_column env c i m hm hv

/-- Witness for C7: the concrete manifest without an is_valid column
aborts before any JSON write. -/
theorem c7_witness :
    envNoColumn.csvFiles (csvFilePath "adhesions" 1) = some mNoColumn ∧
    mNoColumn.hasIsValid = false ∧
    iterStep envNoColumn "adhesions" 1 =
      (.error (.missingColumn "is_valid"), envNoColumn,
       [.readCsv (csvFilePath "adhesions" 1)]) :=
  ⟨rfl, rfl, c7_missing_column_aborts envNoColumn "adhesions" 1 mNoColumn rfl rfl⟩

/-- Claim C8 (code-bug evidence). The claim asserts a re-run overwrites
the previously written JSON file over the same key set; in the code the
first run on the scenario manifest raises before writing (no write
effect, environment unchanged, no JSON file at the output path), and a
re-run from the resulting state behaves identically, so there is never a
previous file to overwrite. -/
theorem c8_rerun_never_overwrites :
    iterStep envScenario "adhesions" 1 =
      (.error (.typeError strDivMsg), envScenario,
       [.readCsv (csvFilePath "adhesions" 1), .readCsv (csvFilePath "adhesions" 1)]) ∧
    iterStep ((iterStep envScenario "adhesions" 1).2.1) "adhesions" 1 =
      iterStep envScenario "adhesions" 1 ∧
    envScenario.jsonFiles "../output/adhesions_split_1.json" = none ∧
    (iterStep envScenario "adhesions" 1).2.1.jsonFiles
      "../output/adhesions_split_1.json" = none :=
  ⟨rfl, rfl, rfl, rfl⟩

/-- Claim C9 (confirmed). With a well-formed manifest the iteration
leaves the CSV store exactly as it was and its effect trace is exactly
two reads of that manifest's path: the loader's read and the independent
re-read, with no write effect of any kind. -/
theorem c9_manifest_read_only (env : Env) (c : String) (i : Nat) (m : Manifest)
    (hm : env.csvFiles (csvFilePath c i) = some m)
    (hv : m.hasIsValid = true) :
    (iterStep env c i).2.1.csvFiles = env.csvFiles ∧
    (iterStep env c i).2.2 =
      [.readCsv (csvFilePath c i), .readCsv (csvFilePath c i)] := by
  cases hfns : validFnames m with
  | nil => rw [iterStep_write_reached env c i m hm hv hfns]; exact ⟨rfl, rfl⟩
  | cons f rest => rw [iterStep_predict_error env c i m f rest hm hv hfns]; exact ⟨rfl, rfl⟩

/-- Witness for C9: the scenario manifest is read twice and never
written. -/
theorem c9_witness :
    envScenario.csvFiles (csvFilePath "adhesions" 1) = some mScenario ∧
    mScenario.hasIsValid = true ∧
    (iterStep envScenario "adhesions" 1).2.1.csvFiles = envScenario.csvFiles ∧
    (iterStep envScenario "adhesions" 1).2.2 =
      [.readCsv (csvFilePath "adhesions" 1), .readCsv (csvFilePath "adhesions" 1)] :=
  ⟨rfl, rfl, c9_manifest_read_only envScenario "adhesions" 1 mScenario rfl rfl⟩

/-- Claim C10 (confirmed). When the manifest has at least one held-out
row, the iteration raises the TypeError of applying true division to the
built-in str image root, and the effect trace holds no prediction
request: the failure precedes any prediction. -/
theorem c10_prediction_type_error (env : Env) (c : String) (i : Nat) (m : Manifest)
    (f : String) (rest : List String)
    (hm : env.csvFiles (csvFilePath c i) = some m)
    (hv : m.hasIsValid = true)
    (hfns : validFnames m = f :: rest) :
    (iterStep env c i).1 = .error (.typeError strDivMsg) ∧
    List.filter isPredictOp (iterStep env c i).2.2 = [] := by
  rw [iterStep_predict_error env c i m f rest hm hv hfns]
  exact ⟨rfl, rfl⟩

/-- Witness for C10: the scenario manifest with two held-out rows raises
the TypeError with no prediction requested. -/
theorem c10_witness :
    envScenario.csvFiles (csvFilePath "adhesions" 1) = some mScenario ∧
    mScenario.hasIsValid = true ∧
    validFnames mScenario = "a.png" :: ["c.png"] ∧
    (iterStep envScenario "adhesions" 1).1 = .error (.typeError strDivMsg) ∧
    List.filter isPredictOp (iterStep envScenario "adhesions" 1).2.2 = [] := by
  refine ⟨rfl, rfl, rfl, ?_⟩
  exact c10_prediction_type_error envScenario "adhesions" 1 mScenario "a.png" ["c.png"]
    rfl rfl rfl

end PGS
